import Mathlib

/-!
Verification of apk-bitminer (linkedin), a decoder for Android DEX
containers and binary AndroidManifest files.

Shallow embedding of the Python sources:
  apk_bitminer/__init__.py  (ByteStream, ContiguousReader, read_leb128)
  apk_bitminer/parsing.py   (DexParser, AXMLParser)

Conventions used throughout:
- A byte stream is a `List Nat` of the bytes remaining at the cursor; every
  reader returns the bytes it consumed alongside its result.
- Python exceptions are modelled by `Except PyErr`; the distinct exception
  classes that the sources can raise are the constructors of `PyErr`.
- Machine integers are `Nat`/`Int` with the two-complement reinterpretation
  made explicit (`sint`), matching struct.unpack with little-endian formats.
-/

/-- The exception kinds observable in the sources.  `formatError` stands for
DexParser.FormatException and for the generic Exceptions raised on malformed
data (invalid LEB128, invalid value-type tag, bad chunk tag); the others are
the built-in Python exceptions the code can raise. -/
inductive PyErr where
  | formatError
  | indexError
  | attributeError
  | keyError
  | valueError
  | structError
  deriving DecidableEq

deriving instance DecidableEq for Except

/-- ByteStream.ContiguousReader (apk_bitminer/__init__.py lines 31-50) as a
state transformer on the cursor position.  `pos` is the cursor position at
entry (`_offset_on_exit = bytestream.tell()`), `offset` the optional explicit
target (`__enter__` seeks there when given), and `body` the scoped
computation: it receives the starting position and returns its result (normal
or raised, either way paired with the position the underlying file cursor was
left at).  `__exit__` seeks back to the entry position only when an explicit
offset was supplied; it runs on both the normal and the exceptional exit
path. -/
def contiguousRead {eps alpha : Type} (pos : Nat) (offset : Option Nat)
    (body : Nat → Except eps alpha × Nat) : Except eps alpha × Nat :=
  let offset_on_exit := pos
  let startPos := match offset with
    | some o => o
    | none => pos
  let r := body startPos
  (r.1, match offset with
    | some _ => offset_on_exit
    | none => r.2)

/-- ContiguousReader.read_leb128 (apk_bitminer/__init__.py lines 95-109), the
loop body: `shift` and `result` are the loop variables, the list holds the
bytes in front of the cursor.  Reading past the end of the stream is
read_byte failing with IndexError; a shift reaching 35 raises the
`LEB128 sequence invalid` Exception.  The second component counts the bytes
consumed. -/
def read_leb128_go : List Nat → Nat → Nat → Except PyErr Nat × Nat
  | [], _, _ => (Except.error PyErr.indexError, 0)
  | b :: rest, shift, result =>
    let result := result ||| ((b &&& 0x7f) <<< shift)
    if b &&& 0x80 = 0 then (Except.ok result, 1)
    else if shift + 7 ≥ 35 then (Except.error PyErr.formatError, 1)
    else
      let r := read_leb128_go rest (shift + 7) result
      (r.1, r.2 + 1)

/-- ContiguousReader.read_leb128: the loop entered with `result = 0`,
`shift = 0`. -/
def read_leb128 (bs : List Nat) : Except PyErr Nat × Nat :=
  read_leb128_go bs 0 0

/-- The unsigned integer denoted by a little-endian base-128 digit sequence:
7 data bits per byte, least-significant group first.  This is the
specification-side description of the value; the implementation assembles it
with or/shift instead. -/
def lebAssemble (bs : List Nat) : Nat :=
  bs.foldr (fun b acc => b % 128 + 128 * acc) 0

/-- Key arithmetic fact connecting the or/shift accumulation of the source to
plain positional arithmetic: when the accumulator fits below the shift
amount, the bitwise or is an addition. -/
theorem or_shiftLeft_eq_add (a b s : Nat) (h : a < 2 ^ s) :
    a ||| (b <<< s) = a + b * 2 ^ s := by
  apply Nat.eq_of_testBit_eq
  intro i
  rw [Nat.testBit_or, Nat.testBit_shiftLeft]
  rcases Nat.lt_or_ge i s with hi | hi
  · have h1 : (decide (i ≥ s) && b.testBit (i - s)) = false := by
      simp [Nat.not_le.mpr hi]
    rw [h1, Bool.or_false]
    have h2 : (a + b * 2 ^ s) % 2 ^ s = a := by
      rw [Nat.add_mul_mod_self_right, Nat.mod_eq_of_lt h]
    calc a.testBit i = ((a + b * 2 ^ s) % 2 ^ s).testBit i := by rw [h2]
      _ = (decide (i < s) && (a + b * 2 ^ s).testBit i) :=
        Nat.testBit_mod_two_pow _ _ _
      _ = (a + b * 2 ^ s).testBit i := by simp [hi]
  · have h1 : a.testBit i = false :=
      Nat.testBit_lt_two_pow
        (lt_of_lt_of_le h (Nat.pow_le_pow_right (by norm_num) hi))
    rw [h1, Bool.false_or]
    have h2 : (a + b * 2 ^ s) >>> s = b := by
      rw [Nat.shiftRight_eq_div_pow]
      rw [Nat.add_mul_div_right _ _ (Nat.pos_pow_of_pos s (by norm_num)),
        Nat.div_eq_of_lt h]
      omega
    have h3 : (a + b * 2 ^ s).testBit i =
        ((a + b * 2 ^ s) >>> s).testBit (i - s) := by
      rw [Nat.testBit_shiftRight]
      congr 1
      omega
    rw [h3, h2]
    simp [hi]

/-- The or/shift loop, entered at shift `7 * k` with an accumulator below
`2 ^ (7 * k)`, terminates successfully at the first byte with a clear
continuation bit, provided that byte occurs before the shift bound, and
returns the positionally-assembled value of the consumed prefix. -/
theorem read_leb128_go_ok : ∀ (i k : Nat) (bs : List Nat) (acc : Nat),
    i + k ≤ 4 → i < bs.length →
    (∀ j, j < i → bs.getD j 0 &&& 0x80 ≠ 0) →
    bs.getD i 0 &&& 0x80 = 0 →
    acc < 2 ^ (7 * k) →
    read_leb128_go bs (7 * k) acc =
      (Except.ok (acc + lebAssemble (bs.take (i + 1)) * 2 ^ (7 * k)), i + 1) := by
  intro i
  induction i with
  | zero =>
    intro k bs acc hik hlen hcont hstop hacc
    match bs, hlen with
    | b :: rest, _ =>
      have hb : b &&& 0x80 = 0 := by simpa [List.getD] using hstop
      have hlow : b &&& 0x7f = b % 128 := by
        have : (0x7f : Nat) = 2 ^ 7 - 1 := by norm_num
        rw [this, Nat.and_pow_two_sub_one_eq_mod]
      simp only [read_leb128_go, hb, if_pos rfl, if_true]
      rw [or_shiftLeft_eq_add _ _ _ hacc, hlow]
      simp [lebAssemble]
  | succ i ih =>
    intro k bs acc hik hlen hcont hstop hacc
    match bs, hlen with
    | b :: rest, hlen =>
      have hb : ¬ (b &&& 0x80 = 0) := by
        have := hcont 0 (Nat.succ_pos i)
        simpa [List.getD] using this
      have hk : k ≤ 3 := by omega
      have hsh : ¬ (7 * k + 7 ≥ 35) := by omega
      have hlow : b &&& 0x7f = b % 128 := by
        have : (0x7f : Nat) = 2 ^ 7 - 1 := by norm_num
        rw [this, Nat.and_pow_two_sub_one_eq_mod]
      have hble : b &&& 0x7f ≤ 127 := Nat.and_le_right
      have hacc2 : acc ||| ((b &&& 0x7f) <<< (7 * k)) < 2 ^ (7 * (k + 1)) := by
        rw [or_shiftLeft_eq_add _ _ _ hacc]
        have hpow : 2 ^ (7 * (k + 1)) = 2 ^ (7 * k) * 128 := by
          rw [Nat.mul_succ, pow_add]
          norm_num
        rw [hpow]
        have h2 : (b &&& 0x7f) * 2 ^ (7 * k) ≤ 127 * 2 ^ (7 * k) :=
          Nat.mul_le_mul_right _ hble
        nlinarith [Nat.pos_pow_of_pos (7 * k) (show 0 < 2 by norm_num)]
      have ihr := ih (k + 1) rest (acc ||| ((b &&& 0x7f) <<< (7 * k)))
        (by omega) (by simpa using Nat.lt_of_succ_lt_succ hlen)
        (fun j hj => by
          have := hcont (j + 1) (Nat.succ_lt_succ hj)
          simpa [List.getD] using this)
        (by simpa [List.getD] using hstop) hacc2
      simp only [read_leb128_go, if_neg hb, if_neg hsh]
      have h7 : 7 * k + 7 = 7 * (k + 1) := by ring
      rw [h7, ihr]
      simp only [Prod.mk.injEq, and_true]
      congr 1
      rw [or_shiftLeft_eq_add _ _ _ hacc, hlow]
      show acc + b % 128 * 2 ^ (7 * k) +
          lebAssemble (rest.take (i + 1)) * 2 ^ (7 * (k + 1)) =
        acc + lebAssemble ((b :: rest).take (i + 1 + 1)) * 2 ^ (7 * k)
      have hpow : 2 ^ (7 * (k + 1)) = 2 ^ (7 * k) * 128 := by
        rw [Nat.mul_succ, pow_add]
        norm_num
      simp only [List.take, lebAssemble, List.foldr]
      rw [hpow]
      ring

/-- The loop consumes at most `5 - k` bytes when entered at shift `7 * k`. -/
theorem read_leb128_go_le : ∀ (bs : List Nat) (k acc : Nat), k ≤ 4 →
    (read_leb128_go bs (7 * k) acc).2 + k ≤ 5 := by
  intro bs
  induction bs with
  | nil => intro k acc hk; simp [read_leb128_go]; omega
  | cons b rest ih =>
    intro k acc hk
    by_cases hb : b &&& 0x80 = 0
    · simp [read_leb128_go, hb]; omega
    · by_cases hsh : 7 * k + 7 ≥ 35
      · simp [read_leb128_go, hb, hsh]; omega
      · have hk1 : k + 1 ≤ 4 := by omega
        have h7 : 7 * k + 7 = 7 * (k + 1) := by ring
        have hsh2 : ¬ (7 * (k + 1) ≥ 35) := by omega
        have := ih (k + 1) (acc ||| ((b &&& 0x7f) <<< (7 * k))) hk1
        simp only [read_leb128_go, if_neg hb, h7, if_neg hsh2]
        omega

/-- Reinterpret an unsigned little-endian `w`-byte value as the signed
machine integer struct.unpack produces for the formats `<h`, `<i`, `<q`. -/
def sint (w : Nat) (n : Nat) : Int :=
  if n < 2 ^ (8 * w - 1) then (n : Int) else (n : Int) - 2 ^ (8 * w)

/-- The unsigned integer encoded little-endian by a byte list. -/
def leNat (bytes : List Nat) : Nat :=
  bytes.foldr (fun b acc => b + 256 * acc) 0

/-- The accumulation loop of the VALUE_ENUM branch (parsing.py lines
373-377): `self._value += base << index * 8`, index counting from `i`. -/
def leShiftSum : List Nat → Nat → Nat
  | [], _ => 0
  | b :: rest, i => (b <<< (i * 8)) + leShiftSum rest (i + 1)

/-- Python semantics of `some_bytes != 0`: a bytes object never compares
equal to the integer 0 (comparison between unrelated types is always
unequal), so the expression is True for every byte string, the empty one
included.  This is the right-hand side of parsing.py line 391. -/
def pyBytesNeIntZero (_bytes : List Nat) : Bool :=
  true

/-- What DexParser.EncodedValue stores in `self._value`, one constructor per
shape of value the branches of parsing.py lines 361-393 can produce.  Float
and double values are kept as their raw little-endian byte pattern.  The
broken VALUE_ARRAY / VALUE_ANNOTATION branches call the nonexistent method
`reader.parse_one_item` and therefore raise before producing a value, so no
constructor is needed for them. -/
inductive EVal where
  | int (i : Int)
  | enum (n : Nat)
  | str (s : String)
  | bytes (bs : List Nat)
  | floatBits (bs : List Nat)
  | bool (b : Bool)
  deriving DecidableEq

/-- The sixteen VALUE_* constants of DexParser.EncodedValue; the membership
test at parsing.py line 361 collects exactly these. -/
def VALUE_TYPE_TAGS : List Nat :=
  [0x00, 0x02, 0x03, 0x04, 0x06, 0x10, 0x11, 0x17,
   0x18, 0x19, 0x1A, 0x1B, 0x1C, 0x1D, 0x1E, 0x1F]

/-- `struct.unpack` over `file.read w`: the file yields fewer than `w` bytes
only at end of stream, in which case struct raises; otherwise exactly `w`
bytes are consumed. -/
def readExact (w : Nat) (bs : List Nat) : Except PyErr (List Nat) :=
  if bs.length < w then Except.error PyErr.structError
  else Except.ok (bs.take w)

/-- `read_fixed_string` (latin-1 decode of exactly `n` bytes): each byte maps
to the character with that code point. -/
def readFixedString (n : Nat) (bs : List Nat) : Except PyErr String :=
  if bs.length < n then Except.error PyErr.structError
  else Except.ok (String.mk ((bs.take n).map (fun b => Char.ofNat b)))

/-- DexParser.EncodedValue.__init__ (parsing.py lines 355-397) over the bytes
in front of the cursor.  Returns the decoded value together with the number
of bytes consumed.  The leading byte packs a 3-bit argument count minus one
(`value_arg`, the high bits) with a 5-bit type tag (`value_type`, the low
bits).  The branch order and the per-branch width conditions follow the
elif chain of the source exactly; the final catch-all returns raw bytes.
`file.read(n)` at end of stream returns the bytes that remain, which is why
the VALUE_ENUM, VALUE_BOOLEAN and catch-all branches consume
`min n (length bs)` bytes rather than failing. -/
def decodeEncodedValue (bs : List Nat) : Except PyErr (EVal × Nat) :=
  match bs with
  | [] => Except.error PyErr.indexError
  | arg_and_type :: rest =>
    let value_arg := arg_and_type >>> 5
    let value_type := arg_and_type &&& 0x1F
    if ¬ (VALUE_TYPE_TAGS.contains value_type) then
      Except.error PyErr.formatError
    else if value_type = 0x00 ∧ value_arg + 1 = 1 then  -- VALUE_BYTE
      match rest with
      | [] => Except.error PyErr.indexError
      | b :: _ => Except.ok (EVal.int b, 2)
    else if value_type = 0x02 ∧ value_arg + 1 = 2 then  -- VALUE_SHORT
      (readExact 2 rest).map (fun bytes => (EVal.int (sint 2 (leNat bytes)), 3))
    else if value_type = 0x04 ∧ value_arg + 1 = 4 then  -- VALUE_INT
      (readExact 4 rest).map (fun bytes => (EVal.int (sint 4 (leNat bytes)), 5))
    else if value_type = 0x06 ∧ value_arg + 1 = 8 then  -- VALUE_LONG
      (readExact 8 rest).map (fun bytes => (EVal.int (sint 8 (leNat bytes)), 9))
    else if value_type = 0x03 ∧ value_arg + 1 = 1 then  -- VALUE_CHAR
      match rest with
      | [] => Except.error PyErr.indexError
      | b :: _ => Except.ok (EVal.str (String.mk [Char.ofNat b]), 2)
    else if value_type = 0x1B then  -- VALUE_ENUM
      Except.ok (EVal.enum (leShiftSum (rest.take (value_arg + 1)) 0),
        1 + min (value_arg + 1) rest.length)
    else if value_type = 0x10 ∧ value_arg + 1 = 4 then  -- VALUE_FLOAT
      (readExact 4 rest).map (fun bytes => (EVal.floatBits bytes, 5))
    else if value_type = 0x11 ∧ value_arg + 1 = 8 then  -- VALUE_DOUBLE
      (readExact 8 rest).map (fun bytes => (EVal.floatBits bytes, 9))
    else if value_type = 0x17 then  -- VALUE_STRING
      (readFixedString (value_arg + 1) rest).map
        (fun s => (EVal.str s, 1 + (value_arg + 1)))
    else if value_type = 0x1C then  -- VALUE_ARRAY
      Except.error PyErr.attributeError  -- reader.parse_one_item does not exist
    else if value_type = 0x1D then  -- the array-of-name-value-pairs kind
      Except.error PyErr.attributeError  -- reader.parse_one_item does not exist
    else if value_type = 0x1E then  -- VALUE_NULL
      Except.ok (EVal.bytes [], 1)
    else if value_type = 0x1F then  -- VALUE_BOOLEAN
      Except.ok (EVal.bool (pyBytesNeIntZero (rest.take value_arg)),
        1 + min value_arg rest.length)
    else
      Except.ok (EVal.bytes (rest.take (value_arg + 1)),
        1 + min (value_arg + 1) rest.length)

/-- DexParser.ClassDefItem (FORMAT "iiiiiiii", parsing.py lines 224-233): the
eight ints of a ClassDef table row.  `super_class_index` is kept signed: the
source tests `< 0` for "no superclass".  The two indices that the discovery
code uses to address other tables are kept as table positions. -/
structure ClassDefItem where
  class_index : Nat
  access_flags : Int
  super_class_index : Int
  interfaces_offset : Int
  source_file_index : Int
  annotations_offset : Int
  class_data_offset : Nat
  static_values_offset : Int
  deriving DecidableEq

/-- DexParser.MemberIdItem (FORMAT "hhi"), shared by FieldIdItem and
MethodIdItem: class index, type index, name index. -/
structure MemberIdItem where
  class_index : Nat
  type_index : Nat
  name_index : Nat
  deriving DecidableEq

/-- DexParser.EncodedMethod: three LEB128 fields.  `index_diff` is used
directly as an index into the MethodId table (parsing.py line 323). -/
structure EncodedMethod where
  index_diff : Nat
  access_flags : Nat
  code_offset : Nat
  deriving DecidableEq

/-- DexParser.ClassDefData: the per-class field/method lists that follow the
four LEB128 counts (parsing.py lines 264-287).  Encoded fields are pairs
(index_diff, access_flags). -/
structure ClassDefData where
  static_fields : List (Nat × Nat)
  instance_fields : List (Nat × Nat)
  direct_methods : List EncodedMethod
  virtual_methods : List EncodedMethod
  deriving DecidableEq

/-- A parsed DEX container at the level the discovery queries consume it:
the String table with every entry already resolved through
`parse_descriptor` (data_offset followed, length varint skipped, text read),
the Type table as its `descriptor_index` column, the MethodId and ClassDef
tables, and the ClassDefData blocks keyed by their `class_data_offset`. -/
structure DexModel where
  strings : List String
  type_descriptor_index : List Nat
  method_ids : List MemberIdItem
  class_defs : List ClassDefItem
  class_data : List (Nat × ClassDefData)
  deriving DecidableEq

/-- Descriptor resolution through a type index: type table, then string
table (DexParser.DescribableItem.descriptor / TypeIdItem.descriptor).
`none` models the IndexError a bad index raises. -/
def typeDescriptor (m : DexModel) (type_index : Nat) : Option String :=
  (m.type_descriptor_index.get? type_index).bind (fun di => m.strings.get? di)

/-- ClassDefItem.descriptor: resolution through `class_index`. -/
def classDescriptor (m : DexModel) (c : ClassDefItem) : Option String :=
  typeDescriptor m c.class_index

/-- ClassDefItem.super_descriptor via super_type (parsing.py lines 238-252);
only meaningful when `super_class_index ≥ 0`, which every caller checks
first. -/
def superDescriptor (m : DexModel) (c : ClassDefItem) : Option String :=
  typeDescriptor m c.super_class_index.toNat

/-- ClassDefItem.has_direct_super_class (parsing.py lines 254-262): False
without a superclass, otherwise membership of the resolved super descriptor
in the given descriptor collection. -/
def hasDirectSuperClass (m : DexModel) (c : ClassDefItem)
    (descs : List String) : Option Bool :=
  if c.super_class_index < 0 then some false
  else (superDescriptor m c).map (fun d => descs.contains d)

/-- The eager list comprehension at parsing.py line 495:
`[c for c in class_defs if c.has_direct_super_class(fixed_set)]`.  The
membership set `fixed_set` is fixed for the whole scan. -/
def filterInherited (m : DexModel) (fixed_set : List String) :
    List ClassDefItem → Option (List ClassDefItem)
  | [] => some []
  | c :: rest => do
    let b ← hasDirectSuperClass m c fixed_set
    let tail ← filterInherited m fixed_set rest
    pure (if b then c :: tail else tail)

/-- DexParser.find_classes_directly_inherited_from (parsing.py lines
489-499).  `fixed_set = set(descriptors)` is snapshotted before the scan;
the loop then resolves each qualifying entry's own descriptor (lines
496-498) and appends it to the caller's `descriptors` list, but never to
`fixed_set`, so the membership tests of the scan see only the initial
descriptors.  The resolution of each yielded descriptor can still raise,
which the trailing `mapM` reproduces. -/
def find_classes_directly_inherited_from (m : DexModel)
    (descriptors : List String) : Option (List ClassDefItem) := do
  let passing ← filterInherited m descriptors m.class_defs
  let _ ← passing.mapM (fun c => classDescriptor m c)
  pure passing

/-- EncodedMethod.method_name (parsing.py lines 322-324): `index_diff` used
directly as MethodId table index, then the name string resolved. -/
def method_name (m : DexModel) (em : EncodedMethod) : Option String :=
  (m.method_ids.get? em.index_diff).bind (fun mid => m.strings.get? mid.name_index)

/-- DexParser.find_method_names (parsing.py lines 501-509): decode the
ClassDefData block at `class_data_offset`, then the names of its virtual
methods, in order. -/
def find_method_names (m : DexModel) (c : ClassDefItem) :
    Option (List String) := do
  let cd ← m.class_data.lookup c.class_data_offset
  cd.virtual_methods.mapM (method_name m)

/-- Python substring membership `sub in s` on strings. -/
def charsStartWith : List Char → List Char → Bool
  | _, [] => true
  | [], _ :: _ => false
  | h :: hs, n :: ns => h == n && charsStartWith hs ns

/-- Helper for `pyStrIn`: does `needle` occur contiguously in `hay`. -/
def charsContainSub : List Char → List Char → Bool
  | [], needle => charsStartWith [] needle
  | h :: hs, needle => charsStartWith (h :: hs) needle || charsContainSub hs needle

/-- Python `sub in s` for strings: contiguous substring test. -/
def pyStrIn (sub s : String) : Bool :=
  charsContainSub s.data sub.data

/-- Python `s.startswith(p)`. -/
def pyStartsWith (s p : String) : Bool :=
  charsStartWith s.data p.data

/-- The guard at parsing.py line 525:
`if self._package_filters and all([dot_sep_name not in f for f in self._package_filters])`.
Note the operand order: it asks whether the dotted class name occurs inside
each filter string. -/
def junit3Skip (package_filters : List String) (dot_sep_name : String) : Bool :=
  !package_filters.isEmpty &&
    package_filters.all (fun f => !(pyStrIn dot_sep_name f))

/-- The guard at parsing.py line 540:
`if self._package_filters and all([f not in dot_sep_name for f in self._package_filters])`.
Here the operand order is reversed: each filter string is sought inside the
dotted class name. -/
def junit4Skip (package_filters : List String) (dot_sep_name : String) : Bool :=
  !package_filters.isEmpty &&
    package_filters.all (fun f => !(pyStrIn f dot_sep_name))

/-- DexParser._descriptor2name (parsing.py lines 511-516):
`name[1:-1].replace('/', '.')`. -/
def descriptor2name (name : String) : String :=
  String.mk (((name.data.drop 1).dropLast).map
    (fun ch => if ch = '/' then '.' else ch))

/-- DexParser.JUNIT3_DEFAULT_DESCRIPTORS (parsing.py lines 437-445). -/
def JUNIT3_DEFAULT_DESCRIPTORS : List String :=
  ["Ljunit/framework/TestCase;", "Landroid/test/ActivityInstrumentationTestCase;",
   "Landroid/test/ActivityInstrumentationTestCase2;", "Landroid/test/ActivityTestCase;",
   "Landroid/test/ActivityUnitTestCase;", "Landroid/test/AndroidTestCase;",
   "Landroid/test/ApplicationTestCase;", "Landroid/test/FailedToCreateTests;",
   "Landroid/test/InstrumentationTestCase;", "Landroid/test/LoaderTestCase;",
   "Landroid/test/ProviderTestCase;", "Landroid/test/ProviderTestCase2;",
   "Landroid/test/ServiceTestCase;", "Landroid/test/SingleLaunchActivityTestCase;",
   "Landroid/test/SyncBaseInstrumentation;"]

/-- DexParser.find_junit3_tests (parsing.py lines 518-530): for every class
the inheritance scan yields, skip it when the package-filter guard fires,
otherwise emit those of its virtual method names that start with "test".
Line 530 yields the bare method name. -/
def find_junit3_tests (m : DexModel) (package_filters : List String)
    (descriptors : List String) : Option (List String) := do
  let classes ← find_classes_directly_inherited_from m descriptors
  classes.foldlM (fun acc c => do
    let desc ← classDescriptor m c
    let dot_sep_name := descriptor2name desc
    if junit3Skip package_filters dot_sep_name then pure acc
    else do
      let names ← find_method_names m c
      pure (acc ++ names.filter (fun mn => pyStartsWith mn "test"))) []

/-- The class-level attributes DexParser.Item._string_ids and
DexParser.Item._type_ids: the lookup context every DescribableItem
dereferences when resolving a descriptor (parsing.py lines 131-135).
Because they live on the class `DexParser.Item`, there is exactly one such
context for the whole process, shared by the records of every parser
instance. -/
structure ItemCtx where
  string_ids : List String
  type_ids : List Nat
  deriving DecidableEq

/-- The table-installation part of DexParser.__init__ (parsing.py lines
475-484): the per-instance CollectionReaders go into `self._ids`, but the
String and Type tables are additionally assigned to the class-level
attributes, overwriting whatever context an earlier parser had installed.
The previous context is discarded wholesale. -/
def installTables (m : DexModel) (_ctx : ItemCtx) : ItemCtx :=
  { string_ids := m.strings, type_ids := m.type_descriptor_index }

/-- DexParser.DescribableItem.descriptor (parsing.py lines 131-135), reading
through the class-level context in force at call time rather than through
the owning parser's own tables. -/
def describableItemDescriptor (ctx : ItemCtx) (type_index : Nat) :
    Option String :=
  (ctx.type_ids.get? type_index).bind (fun di => ctx.string_ids.get? di)

/-- An XML tag as AXMLParser's tree reconstruction leaves it: element name,
attribute (name, value) pairs in decode order — XMLAttr.value is always a
string, `str(None)` included — and child tags. -/
inductive XmlTag where
  | mk (name : String) (attributes : List (String × String))
      (children : List XmlTag)

/-- Element name of a tag. -/
def XmlTag.name : XmlTag → String
  | .mk n _ _ => n

/-- Attributes of a tag, in decode order. -/
def XmlTag.attributes : XmlTag → List (String × String)
  | .mk _ a _ => a

/-- Children of a tag, in document order. -/
def XmlTag.children : XmlTag → List XmlTag
  | .mk _ _ c => c

/-- `{attr.name: attr.value for attr in tag.attributes}.get(key)`: a Python
dict comprehension keeps the LAST binding of a duplicated key. -/
def dictGet (attrs : List (String × String)) (k : String) : Option String :=
  attrs.foldl (fun acc p => if p.1 = k then some p.2 else acc) none

/-- A Python value as the instrumentation-attribute comparisons see it:
None, a bool, or a string (an attribute lookup never denotes anything
else). -/
inductive PyVal where
  | none
  | bool (b : Bool)
  | str (s : String)

/-- Python `==` on such values: equal only within the same type — a str
never equals a bool (`"true" == True` is False in Python), and None equals
only None. -/
def pyEq : PyVal → PyVal → Bool
  | PyVal.none, PyVal.none => true
  | PyVal.bool a, PyVal.bool b => a == b
  | PyVal.str a, PyVal.str b => a == b
  | _, _ => false

/-- Python `v in xs` for a list: some element compares equal to `v`. -/
def pyIn (v : PyVal) (xs : List PyVal) : Bool :=
  xs.any (fun x => pyEq v x)

/-- Python `v == xs` where `v` is a None, bool or str and `xs` is a LIST:
a value of those types never equals a list, so the comparison is False
whatever the operands hold.  This is the comparison shape of parsing.py
line 673. -/
def pyEqValList (_v : PyVal) (_xs : List PyVal) : Bool :=
  false

/-- `attrs_dict.get(key)` as the PyVal it denotes: None or a str. -/
def pyGet (attrs : List (String × String)) (k : String) : PyVal :=
  match dictGet attrs k with
  | Option.none => PyVal.none
  | Option.some s => PyVal.str s

/-- The literal `["true", True]` of parsing.py lines 672-673. -/
def trueTrueList : List PyVal :=
  [PyVal.str "true", PyVal.bool true]

/-- AXMLParser.Instrumentation: the typed record built from an
<instrumentation/> tag. -/
structure Instrumentation where
  runner : Option String
  functional_test : Bool
  handle_profiling : Bool
  label : Option String
  target_package : Option String
  deriving DecidableEq

/-- The instrumentation branch of AXMLParser._process_tags (parsing.py lines
670-680).  Note the two different comparisons copied verbatim from the
source: `functional_test` uses membership
(`attrs_dict.get("functionalTest") in ["true", True]`) while
`handle_profiling` uses equality with the list itself
(`attrs_dict.get("handleProfiling") == ["true", True]`). -/
def mkInstrumentation (attrs : List (String × String)) : Instrumentation :=
  { runner := dictGet attrs "name"
    functional_test := pyIn (pyGet attrs "functionalTest") trueTrueList
    handle_profiling := pyEqValList (pyGet attrs "handleProfiling") trueTrueList
    label := dictGet attrs "label"
    target_package := dictGet attrs "targetPackage" }

/-- Hexadecimal digit value of a character, if any. -/
def hexVal (c : Char) : Option Nat :=
  if '0' ≤ c ∧ c ≤ '9' then some (c.toNat - '0'.toNat)
  else if 'a' ≤ c ∧ c ≤ 'f' then some (c.toNat - 'a'.toNat + 10)
  else if 'A' ≤ c ∧ c ≤ 'F' then some (c.toNat - 'A'.toNat + 10)
  else none

/-- Python `int(s, 16)` on the token shapes the manifest produces: an
optional `0x`/`0X` marker followed by at least one hexadecimal digit;
anything else raises ValueError.  (Whitespace, sign and underscore handling
of the builtin are irrelevant to these inputs and not modelled.) -/
def pyIntBase16 (s : String) : Except PyErr Int :=
  let cs := if pyStartsWith s "0x" || pyStartsWith s "0X" then s.data.drop 2
    else s.data
  if cs.isEmpty then Except.error PyErr.valueError
  else match cs.foldlM (fun acc c => (hexVal c).map (fun d => acc * 16 + d))
      (0 : Nat) with
    | Option.some n => Except.ok (n : Int)
    | Option.none => Except.error PyErr.valueError

/-- The `int(v.split(' ')[1], 16)` idiom of parsing.py lines 684-685.
A missing attribute is None, and `None.split` raises AttributeError; a
value without a second space-separated token raises IndexError. -/
def parseSdkVersion (v : Option String) : Except PyErr Int :=
  match v with
  | Option.none => Except.error PyErr.attributeError
  | Option.some s =>
    match (s.splitOn " ").get? 1 with
    | Option.none => Except.error PyErr.indexError
    | Option.some tok => pyIntBase16 tok

/-- The observable outcome of AXMLParser._process_tags: the four queryable
attributes.  `package_name` distinguishes never-assigned (outer `none` —
the attribute `_package_name` does not exist on the object, so the
`package_name` property raises AttributeError) from assigned-to-a-value. -/
structure AxmlState where
  instrumentation : Option Instrumentation
  uses_sdk : Option (Int × Int)
  permissions : List String
  package_name : Option (Option String)
  deriving DecidableEq

/-- The state after AXMLParser.__init__ lines 625-627: `_instrumentation`
and `_uses_sdk` are None, `_permissions` is empty, and `_package_name` has
not been assigned at all. -/
def axmlInitState : AxmlState :=
  { instrumentation := none
    uses_sdk := none
    permissions := []
    package_name := none }

/-- The per-child dispatch of AXMLParser._process_tags (parsing.py lines
668-689): instrumentation overwrites the record, uses-sdk parses the two
SDK version attributes (target first, as in the source) and can raise,
uses-permission appends `attrs_dict["name"]` (KeyError when absent), any
other child is ignored. -/
def processChild (st : AxmlState) (child : XmlTag) : Except PyErr AxmlState :=
  let attrs := child.attributes
  if child.name = "instrumentation" then
    Except.ok { st with instrumentation := some (mkInstrumentation attrs) }
  else if child.name = "uses-sdk" then do
    let target_sdk_version ← parseSdkVersion (dictGet attrs "targetSdkVersion")
    let min_sdk_version ← parseSdkVersion (dictGet attrs "minSdkVersion")
    Except.ok { st with uses_sdk := some (min_sdk_version, target_sdk_version) }
  else if child.name = "uses-permission" then
    match dictGet attrs "name" with
    | Option.some v => Except.ok { st with permissions := st.permissions ++ [v] }
    | Option.none => Except.error PyErr.keyError
  else Except.ok st

/-- AXMLParser._process_tags (parsing.py lines 660-689) on the
reconstructed root tag (`None` when the token stream produced no tag).
When the root is absent or not named "manifest" the method only prints a
message and re-assigns `_instrumentation = None`, leaving the initial
state; otherwise it stores the root's `package` attribute in
`_package_name` and folds the dispatch over the root's direct children. -/
def process_tags (root : Option XmlTag) : Except PyErr AxmlState :=
  match root with
  | Option.none => Except.ok axmlInitState
  | Option.some t =>
    if t.name ≠ "manifest" then Except.ok axmlInitState
    else
      t.children.foldlM processChild
        { axmlInitState with package_name := some (dictGet t.attributes "package") }

/-- The AXMLParser.package_name property (parsing.py lines 703-705):
reading `self._package_name` raises AttributeError when the attribute was
never assigned. -/
def package_name_query (st : AxmlState) : Except PyErr (Option String) :=
  match st.package_name with
  | Option.none => Except.error PyErr.attributeError
  | Option.some v => Except.ok v

/-- A minimal synthetic container: one class `Lcom/example/Foo;` whose direct
superclass is `Ljunit/framework/TestCase;`, with one virtual method whose
MethodId name resolves to "testFoo", its ClassDefData block keyed at
class_data_offset 42. -/
def dexC1 : DexModel :=
  { strings := ["Lcom/example/Foo;", "Ljunit/framework/TestCase;", "testFoo"]
    type_descriptor_index := [0, 1]
    method_ids := [⟨0, 0, 2⟩]
    class_defs := [⟨0, 0, 1, 0, 0, 0, 42, 0⟩]
    class_data := [(42, ⟨[], [], [], [⟨0, 0, 0⟩]⟩)] }

/-- ClassDef table entry 0 of `dexC3`: class `LA;`, direct superclass
`Ljunit/framework/TestCase;`. -/
def dexC3A : ClassDefItem := ⟨0, 0, 2, 0, 0, 0, 0, 0⟩

/-- ClassDef table entry 1 of `dexC3`: class `LB;`, direct superclass
`LA;`. -/
def dexC3B : ClassDefItem := ⟨1, 0, 0, 0, 0, 0, 0, 0⟩

/-- A container with a two-level inheritance chain in table order:
`LA;` extends the TestCase descriptor, `LB;` extends `LA;`. -/
def dexC3 : DexModel :=
  { strings := ["LA;", "LB;", "Ljunit/framework/TestCase;"]
    type_descriptor_index := [0, 1, 2]
    method_ids := []
    class_defs := [dexC3A, dexC3B]
    class_data := [(0, ⟨[], [], [], []⟩)] }

/-- A one-type container whose single descriptor is `LA;`. -/
def dexC9a : DexModel :=
  { strings := ["LA;"]
    type_descriptor_index := [0]
    method_ids := []
    class_defs := []
    class_data := [] }

/-- A one-type container whose single descriptor is `LB;`. -/
def dexC9b : DexModel :=
  { strings := ["LB;"]
    type_descriptor_index := [0]
    method_ids := []
    class_defs := []
    class_data := [] }

/-- The empty lookup context before any parser is constructed. -/
def ctx0 : ItemCtx := ⟨[], []⟩

/-- A decoded manifest whose root tag is not named "manifest". -/
def badRoot : XmlTag := XmlTag.mk "application" [("package", "com.x")] []

/-- A manifest root with one instrumentation child whose handleProfiling and
functionalTest attributes are both the string "true". -/
def rootC10 : XmlTag :=
  XmlTag.mk "manifest" []
    [XmlTag.mk "instrumentation"
      [("handleProfiling", "true"), ("functionalTest", "true")] []]

/-- The state process_tags produces for `rootC10`. -/
def stC10 : AxmlState :=
  { instrumentation := some ⟨none, true, false, none, none⟩
    uses_sdk := none
    permissions := []
    package_name := some none }

/-- The eager comprehension at parsing.py line 495 keeps exactly the table
entries whose membership test against the snapshotted set succeeds, in table
order. -/
theorem filterInherited_eq (m : DexModel) (fs : List String) :
    ∀ (l : List ClassDefItem) (out : List ClassDefItem),
    filterInherited m fs l = some out →
    out = l.filter (fun c => decide (hasDirectSuperClass m c fs = some true)) := by
  intro l
  induction l with
  | nil =>
    intro out h
    simp only [filterInherited] at h
    cases h
    rfl
  | cons c rest ih =>
    intro out h
    simp only [filterInherited, Option.bind_eq_bind] at h
    cases hb : hasDirectSuperClass m c fs with
    | none => rw [hb] at h; simp at h
    | some b =>
      rw [hb] at h
      cases ht : filterInherited m fs rest with
      | none => rw [ht] at h; simp at h
      | some tail =>
        rw [ht] at h
        simp only [Option.some_bind, Option.pure_def, Option.some.injEq] at h
        subst h
        cases b with
        | true => simp [List.filter, hb, ih tail ht]
        | false => simp [List.filter, hb, ih tail ht]

/-- mkInstrumentation always stores False in handle_profiling: the Python
comparison on line 673 asks whether an optional string equals a list, which
no value of that shape ever does. -/
theorem mkInstrumentation_handle_profiling (attrs : List (String × String)) :
    (mkInstrumentation attrs).handle_profiling = false :=
  rfl

/-- A child tag that is not named "instrumentation" leaves the
instrumentation component of the state unchanged when its dispatch
succeeds. -/
theorem processChild_preserves_instr (st st1 : AxmlState) (child : XmlTag)
    (hname : ¬ child.name = "instrumentation")
    (h : processChild st child = Except.ok st1) :
    st1.instrumentation = st.instrumentation := by
  simp only [processChild, if_neg hname] at h
  by_cases h2 : child.name = "uses-sdk"
  · rw [if_pos h2] at h
    cases h3 : parseSdkVersion (dictGet child.attributes "targetSdkVersion") with
    | error e => rw [h3] at h; cases h
    | ok v =>
      rw [h3] at h
      cases h4 : parseSdkVersion (dictGet child.attributes "minSdkVersion") with
      | error e => rw [h4] at h; cases h
      | ok w =>
        rw [h4] at h
        cases h
        rfl
  · rw [if_neg h2] at h
    by_cases h5 : child.name = "uses-permission"
    · rw [if_pos h5] at h
      cases h6 : dictGet child.attributes "name" with
      | none => rw [h6] at h; simp at h
      | some v => rw [h6] at h; simp at h; cases h; rfl
    · rw [if_neg h5] at h
      cases h
      rfl

/-- Folding the child dispatch keeps the invariant that the instrumentation
record, once present, has handle_profiling False, and establishes it as soon
as a child named "instrumentation" has been processed. -/
theorem processChild_fold_instr :
    ∀ (children : List XmlTag) (st0 st1 : AxmlState),
    children.foldlM processChild st0 = Except.ok st1 →
    (children.any (fun c => c.name == "instrumentation") = true ∨
      (∃ r, st0.instrumentation = some r ∧ r.handle_profiling = false)) →
    ∃ r, st1.instrumentation = some r ∧ r.handle_profiling = false := by
  intro children
  induction children with
  | nil =>
    intro st0 st1 h hd
    simp only [List.foldlM, Except.pure, Except.ok.injEq, pure] at h
    rcases hd with hd | hd
    · simp at hd
    · cases h
      exact hd
  | cons c rest ih =>
    intro st0 st1 h hd
    rw [List.foldlM_cons] at h
    cases hc : processChild st0 c with
    | error e => rw [hc] at h; cases h
    | ok stm =>
      rw [hc] at h
      refine ih stm st1 h ?_
      by_cases hn : c.name = "instrumentation"
      · right
        refine ⟨mkInstrumentation c.attributes, ?_, mkInstrumentation_handle_profiling _⟩
        simp only [processChild, if_pos hn] at hc
        cases hc
        rfl
      · rcases hd with hd | hd
        · simp only [List.any_cons, Bool.or_eq_true] at hd
          rcases hd with hd | hd
          · exfalso
            exact hn (by simpa using hd)
          · left
            exact hd
        · right
          rcases hd with ⟨r, hr, hrf⟩
          exact ⟨r, by rw [processChild_preserves_instr st0 stm c hn hc, hr], hrf⟩

/-- C1: On the minimal synthetic container — one class directly inheriting
Ljunit/framework/TestCase; with one virtual method named testFoo, no package
filter — find_junit3_tests yields exactly one string, but that string is the
bare method name "testFoo" (parsing.py line 530 yields `method`), not the
claimed "com.example.Foo#testFoo". -/
theorem c1_junit3_yields_bare_method_name :
    find_junit3_tests dexC1 [] JUNIT3_DEFAULT_DESCRIPTORS = some ["testFoo"] ∧
    descriptor2name "Lcom/example/Foo;" = "com.example.Foo" ∧
    find_junit3_tests dexC1 [] JUNIT3_DEFAULT_DESCRIPTORS ≠
      some ["com.example.Foo" ++ "#" ++ "testFoo"] := by
  refine ⟨by decide, by decide, by decide⟩

/-- C2 counterexample: a scoped read entered WITHOUT an explicit target
offset does not restore the entry position — a body that advances the
cursor by one leaves it there on exit, so the position after the scope
(here 1) differs from the position before it (0). -/
theorem c2_counterexample :
    (@contiguousRead Unit Unit 0 Option.none
      (fun p => (Except.ok Unit.unit, p + 1))).2 ≠ 0 := by
  decide

/-- C2 amended: when an explicit target offset IS supplied, the cursor
position after the scope exits equals the position at entry, whether the
body succeeds or fails and wherever the body leaves the cursor. -/
theorem c2_restores_entry_position_with_offset {eps alpha : Type}
    (pos o : Nat) (body : Nat → Except eps alpha × Nat) :
    (contiguousRead pos (some o) body).2 = pos :=
  rfl

/-- C4: the two discovery passes use different inclusion rules.  For the
filter list ["com.linkedin.mdctest"] and the dotted class name
"com.linkedin.mdctest.ExampleInstrumentedTest", the filter IS a substring of
the class name (the claimed rule keeps the class, and the JUnit4 guard
agrees), yet the JUnit3 guard at parsing.py line 525 skips the class: it
tests whether the class name occurs inside the filter.  End to end, a filter
string that is a proper prefix of the class name empties the JUnit3
result. -/
theorem c4_filter_rules_differ :
    pyStrIn "com.linkedin.mdctest" "com.linkedin.mdctest.ExampleInstrumentedTest" = true ∧
    junit4Skip ["com.linkedin.mdctest"] "com.linkedin.mdctest.ExampleInstrumentedTest" = false ∧
    junit3Skip ["com.linkedin.mdctest"] "com.linkedin.mdctest.ExampleInstrumentedTest" = true ∧
    pyStrIn "com.example" "com.example.Foo" = true ∧
    find_junit3_tests dexC1 ["com.example"] JUNIT3_DEFAULT_DESCRIPTORS = some [] := by
  refine ⟨by decide, by decide, by decide, by decide, by decide⟩

/-- C5: the VALUE_BOOLEAN branch (parsing.py line 391) computes
`read_bytes(value_arg) != 0`, a bytes-vs-int comparison that is True for
every byte string.  So the decoded value is True even when the argument
count is 0 (first conjunct — the claim says it should be false there), and
the branch consumes value_arg bytes beyond the leading byte when the stream
has them (second conjunct: input [VALUE_BOOLEAN|0x20, 0x00] consumes 2
bytes — the claim says only the leading byte is read). -/
theorem c5_boolean_decode :
    decodeEncodedValue [0x1F] = Except.ok (EVal.bool true, 1) ∧
    decodeEncodedValue [0x3F, 0x00] = Except.ok (EVal.bool true, 2) ∧
    (∀ bytes, pyBytesNeIntZero bytes = true) := by
  exact ⟨by decide, by decide, fun _ => rfl⟩

/-- C6: the encoded-value decoder reproduces the five golden vectors:
byte 0x0A decodes to 10, short 0xBEEF to -0x4111, int 0xEFBEADDE to
-272716322, the three raw bytes of a VALUE_STRING to "ABC", and VALUE_NULL
to the empty byte sequence. -/
theorem c6_golden_vectors :
    decodeEncodedValue [0x00, 0x0A] = Except.ok (EVal.int 10, 2) ∧
    decodeEncodedValue [0x22, 0xEF, 0xBE] = Except.ok (EVal.int (-0x4111), 3) ∧
    decodeEncodedValue [0x64, 0xDE, 0xAD, 0xBE, 0xEF] =
      Except.ok (EVal.int (-272716322), 5) ∧
    decodeEncodedValue [0x57, 0x41, 0x42, 0x43] = Except.ok (EVal.str "ABC", 4) ∧
    decodeEncodedValue [0x1E] = Except.ok (EVal.bytes [], 1) := by
  refine ⟨by decide, by decide, by decide, by decide, by decide⟩

/-- C3 counterexample: in `dexC3`, class `LB;` (table index 1) directly
inherits from class `LA;` (table index 0), and `LA;` is yielded because its
superclass descriptor is in the initial set — yet `LB;` is NOT yielded: the
membership set is snapshotted before the scan and the appended descriptors
never reach it, contradicting the claim that a later-indexed class whose
direct superclass is an earlier-yielded class is itself yielded. -/
theorem c3_counterexample :
    find_classes_directly_inherited_from dexC3 ["Ljunit/framework/TestCase;"] =
      some [dexC3A] ∧
    superDescriptor dexC3 dexC3B = some "LA;" ∧
    classDescriptor dexC3 dexC3A = some "LA;" ∧
    dexC3B ∉ [dexC3A] := by
  refine ⟨by decide, by decide, by decide, by decide⟩

/-- C3 amended: find_classes_directly_inherited_from scans the ClassDef
table in table order and yields exactly those entries whose superclass
descriptor is in the INITIAL descriptor set; descriptors appended during
the scan are not consulted by any later membership test. -/
theorem c3_scan_uses_initial_descriptor_set (m : DexModel)
    (descriptors : List String) (out : List ClassDefItem)
    (h : find_classes_directly_inherited_from m descriptors = some out) :
    out = m.class_defs.filter
      (fun c => decide (hasDirectSuperClass m c descriptors = some true)) := by
  simp only [find_classes_directly_inherited_from, Option.bind_eq_bind] at h
  cases hp : filterInherited m descriptors m.class_defs with
  | none => rw [hp] at h; simp at h
  | some passing =>
    rw [hp] at h
    simp only [Option.some_bind] at h
    cases hq : passing.mapM (fun c => classDescriptor m c) with
    | none => rw [hq] at h; simp at h
    | some l =>
      rw [hq] at h
      simp only [Option.some_bind, Option.pure_def, Option.some.injEq] at h
      subst h
      exact filterInherited_eq m descriptors m.class_defs passing hp

/-- Witness for C3: instantiating the amended theorem on `dexC3`. -/
theorem c3_witness :
    [dexC3A] = dexC3.class_defs.filter
      (fun c => decide (hasDirectSuperClass dexC3 c
        ["Ljunit/framework/TestCase;"] = some true)) :=
  c3_scan_uses_initial_descriptor_set dexC3 ["Ljunit/framework/TestCase;"]
    [dexC3A] (by decide)

/-- C7: read_leb128 returns the unsigned base-128 value assembled from the
7-bit groups (low group first) of the consumed prefix whenever a byte with a
clear continuation bit occurs among the first 5 bytes; it fails with the
LEB128 format error when the 5th byte consumed still has its continuation
bit set; and it never consumes more than 5 bytes. -/
theorem c7_read_leb128_spec :
    (∀ (bs : List Nat) (i : Nat), i < 5 → i < bs.length →
      (∀ j, j < i → bs.getD j 0 &&& 0x80 ≠ 0) →
      bs.getD i 0 &&& 0x80 = 0 →
      read_leb128 bs = (Except.ok (lebAssemble (bs.take (i + 1))), i + 1)) ∧
    (∀ (bs : List Nat), 5 ≤ bs.length →
      (∀ j, j < 5 → bs.getD j 0 &&& 0x80 ≠ 0) →
      read_leb128 bs = (Except.error PyErr.formatError, 5)) ∧
    (∀ (bs : List Nat), (read_leb128 bs).2 ≤ 5) := by
  refine ⟨?_, ?_, ?_⟩
  · intro bs i hi hlen hcont hstop
    have h := read_leb128_go_ok i 0 bs 0 (by omega) hlen hcont hstop
      (by norm_num)
    simpa [read_leb128] using h
  · intro bs hlen hcont
    match bs, hlen with
    | b0 :: b1 :: b2 :: b3 :: b4 :: rest, _ =>
      have h0 := hcont 0 (by norm_num)
      have h1 := hcont 1 (by norm_num)
      have h2 := hcont 2 (by norm_num)
      have h3 := hcont 3 (by norm_num)
      have h4 := hcont 4 (by norm_num)
      simp only [List.getD, List.get?, Option.getD] at h0 h1 h2 h3 h4
      simp [read_leb128, read_leb128_go, h0, h1, h2, h3, h4]
  · intro bs
    have h := read_leb128_go_le bs 0 0 (by norm_num)
    simpa [read_leb128] using h

/-- Witness for C7: the two-byte sequence 0x80 0x01 decodes to 128,
consuming both bytes. -/
theorem c7_witness : read_leb128 [0x80, 0x01] = (Except.ok 128, 2) := by
  have h := c7_read_leb128_spec.1 [0x80, 0x01] 1 (by norm_num) (by norm_num)
    (by decide) (by decide)
  simpa [lebAssemble] using h

/-- C8 counterexample: decoding a manifest whose root tag is named
"application" succeeds and leaves instrumentation/uses_sdk absent and
permissions empty, but querying package_name raises AttributeError —
`_package_name` is only ever assigned inside the manifest branch — so the
claim that querying any of the outputs succeeds without raising is false. -/
theorem c8_counterexample :
    process_tags (some badRoot) = Except.ok axmlInitState ∧
    package_name_query axmlInitState = Except.error PyErr.attributeError := by
  refine ⟨by decide, by decide⟩

/-- C8 amended: for every decoded manifest whose root tag is not named
"manifest", the decode is not a failure and instrumentation and uses_sdk are
absent and permissions is empty — but querying package_name raises
AttributeError rather than returning an absent value, because the attribute
is never assigned on this path. -/
theorem c8_non_manifest_root (root : XmlTag)
    (h : root.name ≠ "manifest") :
    process_tags (some root) = Except.ok axmlInitState ∧
    axmlInitState.instrumentation = none ∧
    axmlInitState.uses_sdk = none ∧
    axmlInitState.permissions = [] ∧
    package_name_query axmlInitState = Except.error PyErr.attributeError := by
  refine ⟨?_, rfl, rfl, rfl, rfl⟩
  simp [process_tags, h]

/-- Witness for C8: instantiating the amended theorem on `badRoot`. -/
theorem c8_witness :
    process_tags (some badRoot) = Except.ok axmlInitState ∧
    axmlInitState.instrumentation = none ∧
    axmlInitState.uses_sdk = none ∧
    axmlInitState.permissions = [] ∧
    package_name_query axmlInitState = Except.error PyErr.attributeError :=
  c8_non_manifest_root badRoot (by decide)

/-- C9 counterexample: the lookup context is class-level state.  After a
first parser installs the tables of `dexC9a`, constructing a second parser
over `dexC9b` changes the context: type index 0 then resolves to "LB;"
where the first decoder's records previously resolved it to "LA;".  The
claim that the second construction leaves the first decoder's lookup
context unchanged is false. -/
theorem c9_counterexample :
    installTables dexC9b (installTables dexC9a ctx0) ≠
      installTables dexC9a ctx0 ∧
    describableItemDescriptor (installTables dexC9a ctx0) 0 = some "LA;" ∧
    describableItemDescriptor (installTables dexC9b (installTables dexC9a ctx0)) 0 =
      some "LB;" := by
  refine ⟨by decide, by decide, by decide⟩

/-- C9 amended: the String and Type tables live in a single class-level
context shared by all decoder instances; installing a second decoder's
tables replaces the context wholesale, so the context — and therefore every
record's descriptor resolution — depends only on the most recently
constructed decoder, whatever was installed before. -/
theorem c9_context_shared_across_instances (m mlat : DexModel)
    (c clat : ItemCtx) :
    installTables mlat c = installTables mlat clat ∧
    (∀ ti, describableItemDescriptor (installTables mlat (installTables m c)) ti =
      describableItemDescriptor (installTables mlat c) ti) :=
  ⟨rfl, fun _ => rfl⟩

/-- C10: the instrumentation record's handle_profiling field is False for
every attribute list — including handleProfiling="true" — because line 673
compares the attribute value with the list ["true", True] itself; by
contrast functional_test is True exactly when the functionalTest attribute
is the string "true" (membership test on line 672); and after a successful
_process_tags over a manifest root with a direct child named
"instrumentation", the stored record has handle_profiling False. -/
theorem c10_handle_profiling_always_false :
    (∀ attrs, (mkInstrumentation attrs).handle_profiling = false) ∧
    (∀ attrs, ((mkInstrumentation attrs).functional_test = true ↔
      dictGet attrs "functionalTest" = some "true")) ∧
    (∀ (root : XmlTag) (st1 : AxmlState),
      root.name = "manifest" →
      process_tags (some root) = Except.ok st1 →
      root.children.any (fun c => c.name == "instrumentation") = true →
      ∃ r, st1.instrumentation = some r ∧ r.handle_profiling = false) := by
  refine ⟨mkInstrumentation_handle_profiling, ?_, ?_⟩
  · intro attrs
    show pyIn (pyGet attrs "functionalTest") trueTrueList = true ↔ _
    cases h : dictGet attrs "functionalTest" with
    | none => simp [pyGet, h, pyIn, pyEq, trueTrueList]
    | some s =>
      simp [pyGet, h, pyIn, pyEq, trueTrueList]
  · intro root st1 hname h hany
    simp only [process_tags] at h
    rw [if_neg (by simp [hname])] at h
    exact processChild_fold_instr root.children _ st1 h (Or.inl hany)

/-- Witness for C10: on `rootC10`, whose instrumentation child carries
handleProfiling="true", the stored record still has handle_profiling
False. -/
theorem c10_witness :
    ∃ r, stC10.instrumentation = some r ∧ r.handle_profiling = false :=
  c10_handle_profiling_always_false.2.2 rootC10 stC10 (by decide) (by decide)
    (by decide)
